import Mathlib

/-!
Shallow embedding of the two setup scripts of this repository
(`webui_setup.py` and `ollama_setup.py`).

Network and OS effects are modelled as explicit environments: each kind of
external call (HTTP probe, ngrok connect, watchdog check cycle, port-freedom
check, `lsof` output, command execution) is a function from a call index to
the outcome that call would observe.  Time is idealised: probes and checks
are instantaneous, so a wall-clock-bounded loop with a 1-second sleep per
iteration performs exactly `timeout` iterations.  Unbounded `while True`
loops take a fuel argument; exhausting fuel means "still running", which is
distinct from every return the program can make.
-/

/-- Outcome of one HTTP GET probe: `none` models a raised
`RequestException` / any exception, `some s` a response with status `s`. -/
abbrev ProbeSeq := Nat → Option Nat

/-- The polling loop of `wait_for_server` (`ollama_setup.py`):
`for _ in range(timeout)` — probe, return `True` on status 200, else sleep
1 second and retry.  Arguments: remaining iterations, next probe index.
Returns (result, total number of probes issued). -/
def pollLoop (resp : ProbeSeq) : Nat → Nat → Bool × Nat
  | 0, k => (false, k)
  | t + 1, k =>
    if resp k = some 200 then (true, k + 1) else pollLoop resp t (k + 1)

/-- `wait_for_server(port, timeout=30)` from `ollama_setup.py`: bounded
readiness polling, one probe per 1-second interval, success on the first
HTTP 200, any exception or non-200 status means retry. -/
def wait_for_server (resp : ProbeSeq) (timeout : Nat) : Bool × Nat :=
  pollLoop resp timeout 0

/-- The polling loop of `wait_for_backend` (`webui_setup.py`):
`while time.time() - start < timeout` — probe, return `True` on status 200,
else sleep 1 second.  With instantaneous probes the loop body runs once per
elapsed second, i.e. `timeout` times.  Arguments: remaining seconds, next
probe index. -/
def backendPoll (resp : ProbeSeq) : Nat → Nat → Bool × Nat
  | 0, k => (false, k)
  | t + 1, k =>
    if resp k = some 200 then (true, k + 1) else backendPoll resp t (k + 1)

/-- `wait_for_backend(url, timeout=30)` from `webui_setup.py`. -/
def wait_for_backend (resp : ProbeSeq) (timeout : Nat) : Bool × Nat :=
  backendPoll resp timeout 0

/-- The configuration key written by the supervisor, `"NGROK_URL="`,
as a character list (lines are modelled as `List Char` so that the
`str.startswith` test is a plain recursive function). -/
def envKey : List Char := "NGROK_URL=".data

/-- Python `line.startswith(pat)`: first argument the line, second the
pattern. -/
def strStartsWith : List Char → List Char → Bool
  | _, [] => true
  | [], _ :: _ => false
  | c :: cs, p :: ps => c == p && strStartsWith cs ps

/-- The `.env` update of `webui_setup.py` `main` (lines 93-99 and 112-117):
drop every line starting with `NGROK_URL=`, then append
`f"NGROK_URL={public_url}\n"`. -/
def updateEnvLines (lines : List (List Char)) (url : List Char) :
    List (List Char) :=
  lines.filter (fun l => !(strStartsWith l envKey)) ++ [envKey ++ url ++ ['\n']]

/-- One check cycle of the ngrok watchdog: the outcome of the
`/api/tunnels` query (`none` = exception, `some urls` = the list of active
public URLs) and the outcome of the liveness GET of the public URL
(`none` = exception, `some s` = status `s`). -/
structure WatchCycle where
  listResult : Option (List String)
  probeStatus : Option Nat
  deriving DecidableEq

/-- Whether one watchdog check cycle makes `ngrok_watchdog` return `False`
(`webui_setup.py` lines 28-47): tunnels-API exception, expected URL missing
from the active list, liveness-probe exception, or non-200 status.  When
the URL is missing the liveness probe is not even issued. -/
def cycleFails (url : String) (c : WatchCycle) : Bool :=
  match c.listResult with
  | none => true
  | some urls =>
    if url ∈ urls then
      match c.probeStatus with
      | none => true
      | some s => if s = 200 then false else true
    else true

/-- `ngrok_watchdog(public_url)` from `webui_setup.py`: an unbounded loop
that returns `False` at the first failing check cycle and otherwise sleeps
15 seconds and re-checks.  Arguments: fuel, next cycle index, seconds slept
so far.  Result `none` = fuel exhausted while still monitoring;
`some (b, i, s)` = returned `b` with `i` the next unconsumed cycle index
and `s` the total seconds slept. -/
def ngrok_watchdog (url : String) (cycles : Nat → WatchCycle) :
    Nat → Nat → Nat → Option (Bool × Nat × Nat)
  | 0, _, _ => none
  | f + 1, i, slept =>
    if cycleFails url (cycles i) then some (false, i + 1, slept)
    else ngrok_watchdog url cycles f (i + 1) (slept + 15)

/-- `max_retries = 5` in `create_ngrok_tunnel`. -/
def max_retries : Nat := 5

/-- `retry_delay = 5` seconds in `create_ngrok_tunnel`. -/
def retry_delay : Nat := 5

/-- The retry loop of `create_ngrok_tunnel` (`webui_setup.py` lines 69-78):
`for attempt in range(max_retries)` — try `ngrok.connect`; return the
tunnel on success; on exception sleep `retry_delay` and continue; after the
loop return `None`.  `connect i` is the outcome of the `i`-th
`ngrok.connect` call of the whole program run (`none` = exception,
`some url` = tunnel with that public URL).  Arguments: remaining attempts,
next connect index, seconds waited so far.  Returns
(result, next connect index, total seconds waited). -/
def create_tunnel_attempts (connect : Nat → Option String) :
    Nat → Nat → Nat → Option String × Nat × Nat
  | 0, i, w => (none, i, w)
  | r + 1, i, w =>
    match connect i with
    | some url => (some url, i + 1, w)
    | none => create_tunnel_attempts connect r (i + 1) (w + retry_delay)

/-- `create_ngrok_tunnel()` from `webui_setup.py`: if `NGROK_AUTHTOKEN` is
unset (or empty, which is falsy in Python) return `None` at once with no
connect attempt and no wait; otherwise run the bounded retry loop. -/
def create_ngrok_tunnel (token : Option String)
    (connect : Nat → Option String) (i : Nat) : Option String × Nat × Nat :=
  match token with
  | none => (none, i, 0)
  | some t =>
    if t = "" then (none, i, 0) else create_tunnel_attempts connect max_retries i 0

/-- Observable events of `webui_setup.py` `main`, in program order:
a rewrite of `.env` appending `NGROK_URL=url`, an invocation of the
watchdog on `url`, an `ngrok.disconnect(url)` call, a successful tunnel
establishment with public URL `url`, a failed (exhausted) tunnel
establishment. -/
inductive Event where
  | envWrite (url : String)
  | watch (url : String)
  | disc (url : String)
  | connOk (url : String)
  | connFail
  deriving DecidableEq

/-- The external world seen by `webui_setup.py` `main`: backend probe
outcomes, the auth token, the global sequence of `ngrok.connect` outcomes,
and the global sequence of watchdog check cycles. -/
structure WebuiEnv where
  backendResp : ProbeSeq
  token : Option String
  connect : Nat → Option String
  cycles : Nat → WatchCycle

/-- The `while True` supervision loop of `webui_setup.py` `main`
(lines 120-131): run the watchdog on `url`; when it signals failure,
disconnect `url`, re-create the tunnel, and break when re-creation fails.
`public_url` is never reassigned in the source (the reassignment on line
132 is commented out), so the recursive call keeps the same `url`, and no
`.env` write occurs in the loop.  Arguments: fuel, next watchdog cycle
index, next connect index, trace so far.  Returns (trace, ended):
`ended = false` means fuel ran out with the loop still running. -/
def mainLoop (e : WebuiEnv) (url : String) (wfuel : Nat) :
    Nat → Nat → Nat → List Event → List Event × Bool
  | 0, _, _, tr => (tr, false)
  | fuel + 1, ci, ki, tr =>
    match ngrok_watchdog url e.cycles wfuel ci 0 with
    | none => (tr ++ [Event.watch url], false)
    | some (_, ci2, _) =>
      match create_ngrok_tunnel e.token e.connect ki with
      | (none, _, _) =>
        (tr ++ [Event.watch url, Event.disc url, Event.connFail], true)
      | (some u, ki2, _) =>
        mainLoop e url wfuel fuel ci2 ki2
          (tr ++ [Event.watch url, Event.disc url, Event.connOk u])

/-- Result of a run of `webui_setup.py` `main`: the event trace, the final
contents of `.env`, and whether the program returned (`ended = true`) or
the fuel ran out mid-loop (`ended = false`). -/
structure MainResult where
  trace : List Event
  envFile : List (List Char)
  ended : Bool
  deriving DecidableEq

/-- `main()` from `webui_setup.py`: wait for the backend (timeout 30);
return if not ready; create the tunnel; return if that fails; rewrite
`.env` with the public URL (lines 93-99), run the curl smoke tests (no
state effect modelled), rewrite `.env` again identically (lines 112-117);
then enter the supervision loop. -/
def webui_main (e : WebuiEnv) (env0 : List (List Char)) (fuel wfuel : Nat) :
    MainResult :=
  if (wait_for_backend e.backendResp 30).1 = true then
    match create_ngrok_tunnel e.token e.connect 0 with
    | (none, _, _) => ⟨[Event.connFail], env0, true⟩
    | (some url, ki, _) =>
      let env2 := updateEnvLines (updateEnvLines env0 url.data) url.data
      let r := mainLoop e url wfuel fuel ki 0
        [Event.connOk url, Event.envWrite url, Event.envWrite url]
      ⟨r.1, env2, r.2⟩
  else ⟨[], env0, true⟩

/-- The external world seen by `ollama_setup.py`: `portFree i` is the
result of the `i`-th `is_port_free(11434)` call, `lsofOut` the outcome of
the `lsof -t -i:port` call in `kill_process_on_port` (`none` = exception,
`some pids` = the PIDs printed on stdout, `[]` when stdout is empty),
`serverResp` the probe outcomes for `wait_for_server`, and `exec c` the
captured output of command `c`. -/
structure CmdOutcome where
  out : String
  err : String
  exitCode : Nat

structure OllamaEnv where
  portFree : Nat → Bool
  lsofOut : Option (List Nat)
  serverResp : ProbeSeq
  exec : List String → CmdOutcome

/-- `kill_process_on_port(port)` from `ollama_setup.py`: run `lsof`; if it
raises, log and do nothing; if stdout is non-empty, SIGKILL every listed
PID and sleep 2 seconds.  Returns (PIDs killed, cooldown seconds slept). -/
def kill_process_on_port (lsofOut : Option (List Nat)) : List Nat × Nat :=
  match lsofOut with
  | none => ([], 0)
  | some pids => if pids = [] then ([], 0) else (pids, 2)

/-- Result of `start_ollama()`: whether the serve process was spawned, the
readiness result, the PIDs killed, the cooldown slept, the number of
`is_port_free` calls made, and the returned boolean. -/
structure StartResult where
  spawned : Bool
  ready : Bool
  killed : List Nat
  cooldown : Nat
  portChecks : Nat
  result : Bool
  deriving DecidableEq

/-- `start_ollama()` from `ollama_setup.py` (lines 75-98): check the port;
if occupied run `kill_process_on_port`; re-check exactly once; if still
occupied abort with `False` and spawn nothing; otherwise spawn
`ollama serve` detached and return the result of `wait_for_server`
(timeout 30). -/
def start_ollama (e : OllamaEnv) : StartResult :=
  let first := e.portFree 0
  let kc := if first then (([] : List Nat), 0) else kill_process_on_port e.lsofOut
  let second := e.portFree 1
  if second then
    let ready := (wait_for_server e.serverResp 30).1
    ⟨true, ready, kc.1, kc.2, 2, ready⟩
  else
    ⟨false, false, kc.1, kc.2, 2, false⟩

/-- The fixed post-startup command list of `run_ollama_commands`. -/
def ollama_commands : List (List String) :=
  [["ollama", "list"],
   ["ollama", "run", "mistral"],
   ["ollama", "run", "deepseek-coder"],
   ["ollama", "run", "llava"],
   ["ollama", "run", "wizard-vicuna-uncensored"]]

/-- The loop body of `run_ollama_commands`: execute each command in order,
capturing and printing its stdout and stderr; the exit status is never
inspected, so no outcome stops the loop. -/
def runCommands (exec : List String → CmdOutcome) :
    List (List String) → List (List String × String × String)
  | [] => []
  | c :: cs => (c, (exec c).out, (exec c).err) :: runCommands exec cs

/-- `run_ollama_commands()` from `ollama_setup.py` (lines 100-121). -/
def run_ollama_commands (exec : List String → CmdOutcome) :
    List (List String × String × String) :=
  runCommands exec ollama_commands

/-- `main()` from `ollama_setup.py` (lines 123-129): stop any existing
instance (no effect on the modelled state), start the service, and run the
post-startup commands only when `start_ollama` reported success. -/
def ollama_main (e : OllamaEnv) :
    StartResult × List (List String × String × String) :=
  let s := start_ollama e
  (s, if s.result then run_ollama_commands e.exec else [])

/-! ### Helper lemmas -/

theorem strStartsWith_append (p s : List Char) :
    strStartsWith (p ++ s) p = true := by
  induction p with
  | nil => simp [strStartsWith]
  | cons c cs ih => simp [strStartsWith, ih]

theorem pollLoop_none (resp : ProbeSeq) :
    ∀ t k, (∀ i, i < t → resp (k + i) ≠ some 200) →
      pollLoop resp t k = (false, k + t) := by
  intro t
  induction t with
  | zero => intro k _; simp [pollLoop]
  | succ t ih =>
    intro k h
    have h0 : ¬ resp k = some 200 := by
      have := h 0 (Nat.succ_pos t); simpa using this
    simp only [pollLoop, if_neg h0]
    have hrest : ∀ i, i < t → resp (k + 1 + i) ≠ some 200 := by
      intro i hi
      have := h (i + 1) (by omega)
      have harith : k + (i + 1) = k + 1 + i := by omega
      rwa [harith] at this
    rw [ih (k + 1) hrest]
    have : k + 1 + t = k + (t + 1) := by omega
    rw [this]

theorem pollLoop_first (resp : ProbeSeq) :
    ∀ t k j, j < t → (∀ i, i < j → resp (k + i) ≠ some 200) →
      resp (k + j) = some 200 → pollLoop resp t k = (true, k + j + 1) := by
  intro t
  induction t with
  | zero => intro k j hj _ _; omega
  | succ t ih =>
    intro k j hj hgood hhit
    cases j with
    | zero =>
      have h0 : resp k = some 200 := by simpa using hhit
      simp [pollLoop, h0]
    | succ j =>
      have h0 : ¬ resp k = some 200 := by
        have := hgood 0 (Nat.succ_pos j); simpa using this
      simp only [pollLoop, if_neg h0]
      have hrest : ∀ i, i < j → resp (k + 1 + i) ≠ some 200 := by
        intro i hi
        have := hgood (i + 1) (by omega)
        have harith : k + (i + 1) = k + 1 + i := by omega
        rwa [harith] at this
      have hhit2 : resp (k + 1 + j) = some 200 := by
        have harith : k + (j + 1) = k + 1 + j := by omega
        rwa [harith] at hhit
      rw [ih (k + 1) j (by omega) hrest hhit2]
      have : k + 1 + j + 1 = k + (j + 1) + 1 := by omega
      rw [this]

theorem backendPoll_eq_pollLoop (resp : ProbeSeq) :
    ∀ t k, backendPoll resp t k = pollLoop resp t k := by
  intro t
  induction t with
  | zero => intro k; rfl
  | succ t ih =>
    intro k
    by_cases h : resp k = some 200
    · simp [backendPoll, pollLoop, h]
    · simp [backendPoll, pollLoop, h, ih]

theorem create_attempts_none (connect : Nat → Option String) :
    ∀ r i w, (∀ j, j < r → connect (i + j) = none) →
      create_tunnel_attempts connect r i w = (none, i + r, w + retry_delay * r) := by
  intro r
  induction r with
  | zero => intro i w _; simp [create_tunnel_attempts]
  | succ r ih =>
    intro i w h
    have h0 : connect i = none := by
      have := h 0 (Nat.succ_pos r); simpa using this
    simp only [create_tunnel_attempts, h0]
    have hrest : ∀ j, j < r → connect (i + 1 + j) = none := by
      intro j hj
      have := h (j + 1) (by omega)
      have harith : i + (j + 1) = i + 1 + j := by omega
      rwa [harith] at this
    rw [ih (i + 1) (w + retry_delay) hrest]
    simp only [Prod.mk.injEq]
    refine ⟨trivial, by omega, ?_⟩
    simp [retry_delay]
    omega

theorem create_attempts_first (connect : Nat → Option String) :
    ∀ r i w k u, k < r → (∀ j, j < k → connect (i + j) = none) →
      connect (i + k) = some u →
      create_tunnel_attempts connect r i w = (some u, i + k + 1, w + retry_delay * k) := by
  intro r
  induction r with
  | zero => intro i w k u hk _ _; omega
  | succ r ih =>
    intro i w k u hk hgood hhit
    cases k with
    | zero =>
      have h0 : connect i = some u := by simpa using hhit
      simp [create_tunnel_attempts, h0]
    | succ k =>
      have h0 : connect i = none := by
        have := hgood 0 (Nat.succ_pos k); simpa using this
      simp only [create_tunnel_attempts, h0]
      have hrest : ∀ j, j < k → connect (i + 1 + j) = none := by
        intro j hj
        have := hgood (j + 1) (by omega)
        have harith : i + (j + 1) = i + 1 + j := by omega
        rwa [harith] at this
      have hhit2 : connect (i + 1 + k) = some u := by
        have harith : i + (k + 1) = i + 1 + k := by omega
        rwa [harith] at hhit
      rw [ih (i + 1) (w + retry_delay) k u (by omega) hrest hhit2]
      simp only [Prod.mk.injEq]
      refine ⟨trivial, by omega, ?_⟩
      simp [retry_delay]
      omega

theorem create_attempts_idx_le (connect : Nat → Option String) :
    ∀ r i w, (create_tunnel_attempts connect r i w).2.1 ≤ i + r := by
  intro r
  induction r with
  | zero => intro i w; simp [create_tunnel_attempts]
  | succ r ih =>
    intro i w
    simp only [create_tunnel_attempts]
    cases h : connect i with
    | none =>
      have := ih (i + 1) (w + retry_delay)
      simpa [Nat.add_assoc, Nat.add_comm 1 r] using this
    | some u => simp

theorem ngrok_watchdog_ne_true (url : String) (cycles : Nat → WatchCycle) :
    ∀ f i s b j t, ngrok_watchdog url cycles f i s = some (b, j, t) → b = false := by
  intro f
  induction f with
  | zero => intro i s b j t h; simp [ngrok_watchdog] at h
  | succ f ih =>
    intro i s b j t h
    by_cases hc : cycleFails url (cycles i) = true
    · simp only [ngrok_watchdog, if_pos hc, Option.some.injEq, Prod.mk.injEq] at h
      exact h.1.symm
    · simp only [ngrok_watchdog, if_neg hc] at h
      exact ih _ _ _ _ _ h

theorem ngrok_watchdog_first (url : String) (cycles : Nat → WatchCycle) :
    ∀ k f i s, (∀ j, j < k → cycleFails url (cycles (i + j)) = false) →
      cycleFails url (cycles (i + k)) = true → k < f →
      ngrok_watchdog url cycles f i s = some (false, i + k + 1, s + 15 * k) := by
  intro k
  induction k with
  | zero =>
    intro f i s _ hbad hf
    cases f with
    | zero => omega
    | succ f =>
      have hb : cycleFails url (cycles i) = true := by simpa using hbad
      simp [ngrok_watchdog, hb]
  | succ k ih =>
    intro f i s hgood hbad hf
    cases f with
    | zero => omega
    | succ f =>
      have h0 : ¬ cycleFails url (cycles i) = true := by
        have := hgood 0 (Nat.succ_pos k); simpa using this
      simp only [ngrok_watchdog, if_neg h0]
      have hgood2 : ∀ j, j < k → cycleFails url (cycles (i + 1 + j)) = false := by
        intro j hj
        have := hgood (j + 1) (by omega)
        have harith : i + (j + 1) = i + 1 + j := by omega
        rwa [harith] at this
      have hbad2 : cycleFails url (cycles (i + 1 + k)) = true := by
        have harith : i + (k + 1) = i + 1 + k := by omega
        rwa [harith] at hbad
      rw [ih f (i + 1) (s + 15) hgood2 hbad2 (by omega)]
      simp only [Option.some.injEq, Prod.mk.injEq]
      refine ⟨trivial, by omega, by omega⟩

theorem mainLoop_mem (e : WebuiEnv) (url : String) (wfuel : Nat) :
    ∀ fuel ci ki tr ev, ev ∈ (mainLoop e url wfuel fuel ci ki tr).1 →
      ev ∈ tr ∨ ev = Event.watch url ∨ ev = Event.disc url ∨
        (∃ v, ev = Event.connOk v) ∨ ev = Event.connFail := by
  intro fuel
  induction fuel with
  | zero => intro ci ki tr ev h; exact Or.inl h
  | succ fuel ih =>
    intro ci ki tr ev
    simp only [mainLoop]
    cases hw : ngrok_watchdog url e.cycles wfuel ci 0 with
    | none =>
      intro h
      simp only [List.mem_append, List.mem_singleton] at h
      rcases h with h | h
      · exact Or.inl h
      · exact Or.inr (Or.inl h)
    | some p =>
      obtain ⟨b, ci2, s⟩ := p
      cases hcr : create_ngrok_tunnel e.token e.connect ki with
      | mk res rest =>
        obtain ⟨ki2, w⟩ := rest
        cases res with
        | none =>
          intro h
          simp only [List.mem_append, List.mem_cons, List.mem_singleton,
            List.not_mem_nil, or_false] at h
          rcases h with h | h | h | h
          · exact Or.inl h
          · exact Or.inr (Or.inl h)
          · exact Or.inr (Or.inr (Or.inl h))
          · exact Or.inr (Or.inr (Or.inr (Or.inr h)))
        | some u =>
          intro h
          rcases ih ci2 ki2 _ ev h with h2 | h2 | h2 | h2 | h2
          · simp only [List.mem_append, List.mem_cons, List.mem_singleton,
              List.not_mem_nil, or_false] at h2
            rcases h2 with h2 | h2 | h2 | h2
            · exact Or.inl h2
            · exact Or.inr (Or.inl h2)
            · exact Or.inr (Or.inr (Or.inl h2))
            · exact Or.inr (Or.inr (Or.inr (Or.inl ⟨u, h2⟩)))
          · exact Or.inr (Or.inl h2)
          · exact Or.inr (Or.inr (Or.inl h2))
          · exact Or.inr (Or.inr (Or.inr (Or.inl h2)))
          · exact Or.inr (Or.inr (Or.inr (Or.inr h2)))

theorem mainLoop_connFail (e : WebuiEnv) (url : String) (wfuel : Nat) :
    ∀ fuel ci ki tr, Event.connFail ∉ tr →
      ((mainLoop e url wfuel fuel ci ki tr).2 = true ↔
        Event.connFail ∈ (mainLoop e url wfuel fuel ci ki tr).1) := by
  intro fuel
  induction fuel with
  | zero =>
    intro ci ki tr htr
    simp only [mainLoop]
    constructor
    · intro h; cases h
    · intro h; exact absurd h htr
  | succ fuel ih =>
    intro ci ki tr htr
    simp only [mainLoop]
    cases hw : ngrok_watchdog url e.cycles wfuel ci 0 with
    | none =>
      constructor
      · intro h; cases h
      · intro h
        simp only [List.mem_append, List.mem_singleton] at h
        rcases h with h | h
        · exact absurd h htr
        · cases h
    | some p =>
      obtain ⟨b, ci2, s⟩ := p
      cases hcr : create_ngrok_tunnel e.token e.connect ki with
      | mk res rest =>
        obtain ⟨ki2, w⟩ := rest
        cases res with
        | none =>
          constructor
          · intro _; simp
          · intro _; rfl
        | some u =>
          have htr2 : Event.connFail ∉
              tr ++ [Event.watch url, Event.disc url, Event.connOk u] := by
            simp only [List.mem_append, List.mem_cons, List.mem_singleton,
              List.not_mem_nil, or_false]
            intro h
            rcases h with h | h | h | h
            · exact htr h
            · cases h
            · cases h
            · cases h
          exact ih ci2 ki2 _ htr2

theorem strStartsWith_envKey_line (x : List Char) :
    strStartsWith (envKey ++ x ++ ['\n']) envKey = true := by
  rw [List.append_assoc]
  exact strStartsWith_append envKey (x ++ ['\n'])

theorem runCommands_eq_map (exec : List String → CmdOutcome) :
    ∀ cs, runCommands exec cs =
      cs.map (fun c => (c, (exec c).out, (exec c).err)) := by
  intro cs
  induction cs with
  | nil => rfl
  | cons c cs ih => simp [runCommands, ih]

/-! ### Claim theorems -/

/-- C2: persisting a value for key `NGROK_URL` removes every prior line
for that key and appends the new `key=value` line: writing `NGROK_URL=A`
then `NGROK_URL=B` leaves exactly one line for that key, carrying value
`B`, and leaves the lines of all other keys unchanged and in their
original relative order. -/
theorem C2_env_persistence (lines : List (List Char)) (A B : List Char) :
    ((updateEnvLines (updateEnvLines lines A) B).filter
        (fun l => strStartsWith l envKey) = [envKey ++ B ++ ['\n']])
    ∧ ((updateEnvLines (updateEnvLines lines A) B).filter
        (fun l => !(strStartsWith l envKey)) =
      lines.filter (fun l => !(strStartsWith l envKey))) := by
  constructor
  · simp [updateEnvLines, List.filter_append, List.filter_filter,
      strStartsWith_append]
  · simp [updateEnvLines, List.filter_append, List.filter_filter,
      strStartsWith_append]

/-- C3: for every timeout `T ≥ 1` and every response sequence, the
readiness pollers (`wait_for_server` of `ollama_setup.py` and
`wait_for_backend` of `webui_setup.py`, the latter under the idealisation
of instantaneous probes) return `true` at the first probe whose status is
200, having issued exactly that many probes at one per 1-second interval,
and when no probe in the window returns 200 they return `false` having
issued exactly `T` probes. -/
theorem C3_readiness_poller (resp : ProbeSeq) (T : Nat) (_hT : 1 ≤ T) :
    ((∀ i, i < T → resp i ≠ some 200) →
      wait_for_server resp T = (false, T) ∧ wait_for_backend resp T = (false, T))
    ∧ (∀ k, k < T → (∀ j, j < k → resp j ≠ some 200) → resp k = some 200 →
      wait_for_server resp T = (true, k + 1)
        ∧ wait_for_backend resp T = (true, k + 1)) := by
  constructor
  · intro h
    have h0 : ∀ i, i < T → resp (0 + i) ≠ some 200 := by simpa using h
    have hp := pollLoop_none resp T 0 h0
    constructor
    · simpa [wait_for_server] using hp
    · rw [wait_for_backend, backendPoll_eq_pollLoop]
      simpa using hp
  · intro k hk hgood hhit
    have hp := pollLoop_first resp T 0 k hk (by simpa using hgood)
      (by simpa using hhit)
    constructor
    · simpa [wait_for_server] using hp
    · rw [wait_for_backend, backendPoll_eq_pollLoop]
      simpa using hp

theorem C3_readiness_poller_witness :
    wait_for_server (fun _ => none) 2 = (false, 2)
    ∧ wait_for_server (fun i => if i = 1 then some 200 else some 500) 3 = (true, 2) := by
  have h1 := (C3_readiness_poller (fun _ => none) 2 (by decide)).1
    (by intro i _; simp)
  have h2 := (C3_readiness_poller (fun i => if i = 1 then some 200 else some 500)
    3 (by decide)).2 1 (by decide)
    (by intro j hj; interval_cases j; simp) (by simp)
  exact ⟨h1.1, h2.1⟩

/-- C4: the tunnel watchdog returns a failure signal (a `False` return, not
an exception — all errors are data in `cycleFails`) at the very first check
cycle that fails, i.e. where the active-tunnel list omits the expected URL,
the liveness probe status is non-200, or either check errors; it sleeps 15
seconds after each earlier successful check; and no invocation of the
monitoring loop ever returns a success result. -/
theorem C4_watchdog (url : String) (cycles : Nat → WatchCycle) (k : Nat)
    (hgood : ∀ j, j < k → cycleFails url (cycles j) = false)
    (hbad : cycleFails url (cycles k) = true) :
    (∀ f i s b j t, ngrok_watchdog url cycles f i s = some (b, j, t) → b = false)
    ∧ (∀ f, k < f → ngrok_watchdog url cycles f 0 0 = some (false, k + 1, 15 * k)) := by
  constructor
  · exact ngrok_watchdog_ne_true url cycles
  · intro f hf
    have h := ngrok_watchdog_first url cycles k f 0 0 (by simpa using hgood)
      (by simpa using hbad) hf
    simpa using h

theorem C4_watchdog_witness :
    ngrok_watchdog "https://t.ngrok.io"
      (fun i => if i = 0 then ⟨some ["https://t.ngrok.io"], some 200⟩
                else ⟨some [], none⟩) 3 0 0 = some (false, 2, 15) := by
  have h := (C4_watchdog "https://t.ngrok.io"
      (fun i => if i = 0 then ⟨some ["https://t.ngrok.io"], some 200⟩
                else ⟨some [], none⟩) 1
      (by intro j hj; interval_cases j; decide)
      (by decide)).2 3 (by decide)
  simpa using h

/-- C5: tunnel establishment attempts the provider at most
`max_retries = 5` times: the next-connect index grows by at most 5; it
returns the tunnel of the first successful attempt having waited
`retry_delay = 5` seconds between consecutive attempts (total `5 * k`
seconds when the zero-based attempt `k` succeeds); after all attempts fail
it returns the failure signal; and in particular when the provider fails
the first four times and succeeds on the fifth, the result is success. -/
theorem C5_tunnel_retry (token : String) (connect : Nat → Option String)
    (htok : token ≠ "") :
    ((create_ngrok_tunnel (some token) connect 0).2.1 ≤ max_retries)
    ∧ ((∀ j, j < max_retries → connect j = none) →
        create_ngrok_tunnel (some token) connect 0 = (none, 5, 25))
    ∧ (∀ k u, k < max_retries → (∀ j, j < k → connect j = none) →
        connect k = some u →
        create_ngrok_tunnel (some token) connect 0 = (some u, k + 1, retry_delay * k))
    ∧ (∀ u, (∀ j, j < 4 → connect j = none) → connect 4 = some u →
        create_ngrok_tunnel (some token) connect 0 = (some u, 5, 20)) := by
  refine ⟨?_, ?_, ?_, ?_⟩
  · simp only [create_ngrok_tunnel, if_neg htok]
    have h := create_attempts_idx_le connect max_retries 0 0
    simpa using h
  · intro h
    simp only [create_ngrok_tunnel, if_neg htok]
    have hn := create_attempts_none connect max_retries 0 0 (by simpa using h)
    simpa [max_retries, retry_delay] using hn
  · intro k u hk hgood hhit
    simp only [create_ngrok_tunnel, if_neg htok]
    have hfst := create_attempts_first connect max_retries 0 0 k u hk
      (by simpa using hgood) (by simpa using hhit)
    simpa using hfst
  · intro u hgood hhit
    simp only [create_ngrok_tunnel, if_neg htok]
    have hfst := create_attempts_first connect max_retries 0 0 4 u
      (by simp [max_retries]) (by simpa using hgood) (by simpa using hhit)
    simpa [retry_delay] using hfst

theorem C5_tunnel_retry_witness :
    create_ngrok_tunnel (some "tk")
      (fun i => if i = 4 then some "https://w.ngrok.io" else none) 0
      = (some "https://w.ngrok.io", 5, 20) := by
  have h := (C5_tunnel_retry "tk"
    (fun i => if i = 4 then some "https://w.ngrok.io" else none)
    (by decide)).2.2.2 "https://w.ngrok.io"
    (by intro j hj; interval_cases j <;> decide) (by decide)
  exact h

/-- C6: when the `NGROK_AUTHTOKEN` credential is absent, tunnel
establishment reports failure immediately with zero network attempts: the
`ngrok.connect` index is unchanged (no connect call consumed) and no retry
wait elapses. -/
theorem C6_missing_token (connect : Nat → Option String) (i : Nat) :
    create_ngrok_tunnel none connect i = (none, i, 0) := rfl

/-- C7: port remediation before launch is a single pass: when the port is
initially occupied, the PIDs `lsof` reports are killed and the fixed
2-second cooldown elapses, freedom is re-checked exactly once (two
`is_port_free` calls in total, never more), and when the port is still
occupied after this one pass `start_ollama` aborts with failure and spawns
no service process. -/
theorem C7_port_remediation (e : OllamaEnv) (pids : List Nat)
    (hocc : e.portFree 0 = false) (hlsof : e.lsofOut = some pids)
    (hpids : pids ≠ []) :
    ((start_ollama e).killed = pids ∧ (start_ollama e).cooldown = 2
      ∧ (start_ollama e).portChecks = 2)
    ∧ (e.portFree 1 = false →
        (start_ollama e).spawned = false ∧ (start_ollama e).result = false) := by
  constructor
  · cases h2 : e.portFree 1 <;>
      simp [start_ollama, kill_process_on_port, hocc, hlsof, hpids, h2]
  · intro h2
    simp [start_ollama, kill_process_on_port, hocc, hlsof, hpids, h2]

theorem C7_port_remediation_witness :
    (start_ollama ⟨fun _ => false, some [42], fun _ => none,
        fun _ => ⟨"", "", 0⟩⟩).killed = [42]
    ∧ (start_ollama ⟨fun _ => false, some [42], fun _ => none,
        fun _ => ⟨"", "", 0⟩⟩).cooldown = 2
    ∧ (start_ollama ⟨fun _ => false, some [42], fun _ => none,
        fun _ => ⟨"", "", 0⟩⟩).spawned = false
    ∧ (start_ollama ⟨fun _ => false, some [42], fun _ => none,
        fun _ => ⟨"", "", 0⟩⟩).result = false := by
  have h := C7_port_remediation
    ⟨fun _ => false, some [42], fun _ => none, fun _ => ⟨"", "", 0⟩⟩
    [42] rfl rfl (by decide)
  exact ⟨h.1.1, h.1.2.1, (h.2 rfl).1, (h.2 rfl).2⟩

/-- C8: the fixed post-startup command list runs only when `start_ollama`
reported success; it is then executed sequentially in the given order — all
five commands, for every possible outcome of every command, so a failing
command never prevents the following ones — and each command's captured
stdout and stderr appear in the surfaced output. -/
theorem C8_post_startup (e : OllamaEnv) :
    ((start_ollama e).result = true →
      ((ollama_main e).2.map Prod.fst = ollama_commands
        ∧ ∀ c ∈ ollama_commands,
            (c, (e.exec c).out, (e.exec c).err) ∈ (ollama_main e).2))
    ∧ ((start_ollama e).result = false → (ollama_main e).2 = []) := by
  constructor
  · intro h
    constructor
    · simp only [ollama_main, h, if_true, run_ollama_commands,
        runCommands_eq_map, List.map_map]
      rfl
    · intro c hc
      simp only [ollama_main, h, if_true, run_ollama_commands,
        runCommands_eq_map]
      exact List.mem_map_of_mem (fun c => (c, (e.exec c).out, (e.exec c).err)) hc
  · intro h
    simp [ollama_main, h]

theorem C8_post_startup_witness :
    (ollama_main ⟨fun _ => true, some [], fun _ => some 200,
        fun _ => ⟨"out", "err", 1⟩⟩).2.map Prod.fst = ollama_commands := by
  have h := (C8_post_startup ⟨fun _ => true, some [], fun _ => some 200,
      fun _ => ⟨"out", "err", 1⟩⟩).1 (by decide)
  exact h.1

/-- C9: in every iteration of the supervision loop, including iterations
after a successful re-establishment, the URL handed to the watchdog and to
`ngrok.disconnect` is the public URL of the original tunnel, and every
`.env` write carries that original URL; a replacement tunnel's public URL
is never monitored, never disconnected, and never persisted. -/
theorem C9_original_url_only (e : WebuiEnv) (env0 : List (List Char))
    (fuel wfuel : Nat) (url : String) (ki w : Nat)
    (hcreate : create_ngrok_tunnel e.token e.connect 0 = (some url, ki, w)) :
    ∀ v, (Event.watch v ∈ (webui_main e env0 fuel wfuel).trace
        ∨ Event.disc v ∈ (webui_main e env0 fuel wfuel).trace
        ∨ Event.envWrite v ∈ (webui_main e env0 fuel wfuel).trace) → v = url := by
  intro v hv
  by_cases hr : (wait_for_backend e.backendResp 30).1 = true
  · simp only [webui_main, if_pos hr, hcreate] at hv
    rcases hv with hv | hv | hv
    · rcases mainLoop_mem e url wfuel fuel ki 0 _ _ hv with h | h | h | h | h
      · simp only [List.mem_cons, List.not_mem_nil, or_false] at h
        rcases h with h | h | h <;> exact absurd h (by simp)
      · injection h with h2
      · exact absurd h (by simp)
      · obtain ⟨u, h⟩ := h; exact absurd h (by simp)
      · exact absurd h (by simp)
    · rcases mainLoop_mem e url wfuel fuel ki 0 _ _ hv with h | h | h | h | h
      · simp only [List.mem_cons, List.not_mem_nil, or_false] at h
        rcases h with h | h | h <;> exact absurd h (by simp)
      · exact absurd h (by simp)
      · injection h with h2
      · obtain ⟨u, h⟩ := h; exact absurd h (by simp)
      · exact absurd h (by simp)
    · rcases mainLoop_mem e url wfuel fuel ki 0 _ _ hv with h | h | h | h | h
      · simp only [List.mem_cons, List.not_mem_nil, or_false] at h
        rcases h with h | h | h
        · exact absurd h (by simp)
        · injection h with h2
        · injection h with h2
      · exact absurd h (by simp)
      · exact absurd h (by simp)
      · obtain ⟨u, h⟩ := h; exact absurd h (by simp)
      · exact absurd h (by simp)
  · simp only [webui_main, if_neg hr] at hv
    simp at hv

theorem C9_original_url_only_witness :
    Event.disc "https://orig.ngrok.io" ∈
      (webui_main ⟨fun _ => some 200, some "tk",
        fun i => if i = 0 then some "https://orig.ngrok.io"
                 else some "https://new.ngrok.io",
        fun _ => ⟨none, none⟩⟩ [] 3 2).trace
    ∧ "https://orig.ngrok.io" = "https://orig.ngrok.io" := by
  refine ⟨by decide, ?_⟩
  exact C9_original_url_only
    ⟨fun _ => some 200, some "tk",
      fun i => if i = 0 then some "https://orig.ngrok.io"
               else some "https://new.ngrok.io",
      fun _ => ⟨none, none⟩⟩ [] 3 2 "https://orig.ngrok.io" 1 0 (by decide)
    "https://orig.ngrok.io" (Or.inr (Or.inl (by decide)))

/-- C10: when backend readiness polling fails, and likewise when the
initial tunnel establishment returns the failure signal, `main` returns
without writing the `.env` configuration file: its contents are unchanged
on both error paths. -/
theorem C10_no_write_on_failure (e : WebuiEnv) (env0 : List (List Char))
    (fuel wfuel : Nat) :
    ((wait_for_backend e.backendResp 30).1 = false →
      (webui_main e env0 fuel wfuel).envFile = env0)
    ∧ ((create_ngrok_tunnel e.token e.connect 0).1 = none →
      (webui_main e env0 fuel wfuel).envFile = env0) := by
  constructor
  · intro h
    simp [webui_main, h]
  · intro h
    by_cases hr : (wait_for_backend e.backendResp 30).1 = true
    · cases hc : create_ngrok_tunnel e.token e.connect 0 with
      | mk res rest =>
        cases res with
        | none => simp [webui_main, hr, hc]
        | some u => rw [hc] at h; cases h
    · simp [webui_main, hr]

theorem C10_no_write_on_failure_witness :
    (webui_main ⟨fun _ => none, none, fun _ => none, fun _ => ⟨none, none⟩⟩
      [envKey] 1 1).envFile = [envKey]
    ∧ (webui_main ⟨fun _ => some 200, none, fun _ => none, fun _ => ⟨none, none⟩⟩
      [envKey] 1 1).envFile = [envKey] := by
  constructor
  · exact (C10_no_write_on_failure
      ⟨fun _ => none, none, fun _ => none, fun _ => ⟨none, none⟩⟩
      [envKey] 1 1).1 (by decide)
  · exact (C10_no_write_on_failure
      ⟨fun _ => some 200, none, fun _ => none, fun _ => ⟨none, none⟩⟩
      [envKey] 1 1).2 (by decide)

theorem C1_counterexample :
    Event.connOk "https://b.ngrok.io" ∈
      (webui_main ⟨fun _ => some 200, some "tk",
        fun i => if i = 0 then some "https://a.ngrok.io"
                 else some "https://b.ngrok.io",
        fun _ => ⟨some [], none⟩⟩ [] 2 1).trace
    ∧ Event.envWrite "https://b.ngrok.io" ∉
      (webui_main ⟨fun _ => some 200, some "tk",
        fun i => if i = 0 then some "https://a.ngrok.io"
                 else some "https://b.ngrok.io",
        fun _ => ⟨some [], none⟩⟩ [] 2 1).trace
    ∧ (envKey ++ "https://b.ngrok.io".data ++ ['\n']) ∉
      (webui_main ⟨fun _ => some 200, some "tk",
        fun i => if i = 0 then some "https://a.ngrok.io"
                 else some "https://b.ngrok.io",
        fun _ => ⟨some [], none⟩⟩ [] 2 1).envFile := by
  decide

/-- C1 (amended): after the initial tunnel is established and its public
URL persisted, the supervision loop re-establishes the tunnel on every
watchdog-detected failure, but the replacement tunnel's public URL is not
re-persisted: the configuration store keeps exactly the contents written
before the loop (the original URL), and the program ends exactly when a
re-establishment attempt itself fails outright. -/
theorem C1_amended (e : WebuiEnv) (env0 : List (List Char))
    (fuel wfuel : Nat) (url : String) (ki w : Nat)
    (hready : (wait_for_backend e.backendResp 30).1 = true)
    (hcreate : create_ngrok_tunnel e.token e.connect 0 = (some url, ki, w)) :
    (webui_main e env0 fuel wfuel).envFile =
      updateEnvLines (updateEnvLines env0 url.data) url.data
    ∧ ((webui_main e env0 fuel wfuel).ended = true ↔
        Event.connFail ∈ (webui_main e env0 fuel wfuel).trace) := by
  constructor
  · simp [webui_main, hready, hcreate]
  · simp only [webui_main, if_pos hready, hcreate]
    exact mainLoop_connFail e url wfuel fuel ki 0
      [Event.connOk url, Event.envWrite url, Event.envWrite url] (by simp)

theorem C1_amended_witness :
    (webui_main ⟨fun _ => some 200, some "tk",
        fun i => if i = 0 then some "https://c.ngrok.io" else none,
        fun _ => ⟨some [], none⟩⟩ [] 2 1).envFile =
      updateEnvLines (updateEnvLines [] "https://c.ngrok.io".data)
        "https://c.ngrok.io".data
    ∧ ((webui_main ⟨fun _ => some 200, some "tk",
        fun i => if i = 0 then some "https://c.ngrok.io" else none,
        fun _ => ⟨some [], none⟩⟩ [] 2 1).ended = true ↔
      Event.connFail ∈ (webui_main ⟨fun _ => some 200, some "tk",
        fun i => if i = 0 then some "https://c.ngrok.io" else none,
        fun _ => ⟨some [], none⟩⟩ [] 2 1).trace) :=
  C1_amended ⟨fun _ => some 200, some "tk",
      fun i => if i = 0 then some "https://c.ngrok.io" else none,
      fun _ => ⟨some [], none⟩⟩ [] 2 1 "https://c.ngrok.io" 1 0
    (by decide) (by decide)
